import Mathlib

/-!
Verification of the amplicode background learning worker.

This file shallowly embeds the operational core of the repository's Python
scripts (`learning_worker.py`, `learning_memory.py`, `learning_monitor.py`,
`health_monitor.py`, `learning_extractor.py`) as executable Lean definitions
and proves or refutes the specification's claims about them.

Modelling conventions:
* time is modelled in whole seconds (`Nat`, or `Int` where a difference
  matters), matching the spec's second-granular statements;
* a JSON file on disk is `Option FileContent` (`none` = file absent), where
  `FileContent` is either a well-formed document or corrupt bytes, and
  `json.load` is the `parseJson` projection;
* `json.loads` applied to a free-form queue line is abstracted as a
  `decode : String → Option Event` parameter (success = `some`);
* a Python dict field read with `dict.get(k, d)` becomes an `Option`-typed
  structure field read with `Option.getD`.
-/

namespace Amplicode

/-- An event from the queue log: `{event_type, project, timestamp, ...}`.
The `timestamp` field may be absent (`event.get('timestamp', 0)` in the
monitor defaults it to 0). Opaque extra fields are irrelevant to the claims. -/
structure Event where
  event_type : String := "unknown"
  project : String := ""
  timestamp : Option Int := none
deriving DecidableEq, Repr

/-- A preference record as stored in a memory document.  The fields other
than `raw_text` and `added_at` are opaque to the operational core and are
collapsed into `payload`. -/
structure Preference where
  raw_text : Option String := none
  added_at : Option Nat := none
  payload : String := ""
deriving DecidableEq, Repr

/-- A memory document: `{preferences, created_at, updated_at, version}`. -/
structure MemoryDoc where
  preferences : List Preference
  created_at : Nat
  updated_at : Nat
  version : String
deriving DecidableEq, Repr

/-- Contents of a JSON file on disk: either a well-formed document or
corrupt bytes that `json.load` rejects. -/
inductive FileContent where
  | valid (d : MemoryDoc)
  | corrupt
deriving DecidableEq, Repr

/-- Model of `json.load` on a memory file: succeeds exactly on well-formed content. -/
def parseJson : FileContent → Option MemoryDoc
  | .valid d => some d
  | .corrupt => none

/-- The persisted restart state `{restart_count, backoff_until}`.  Either
key may be missing from the JSON object; the code reads both with
`state.get(key, 0)`. -/
structure RestartStateFile where
  restart_count : Option Nat := none
  backoff_until : Option Nat := none
deriving DecidableEq, Repr

/-- The restart-state file as seen by the code: `none` = file does not
exist, `some none` = file exists but reading/parsing raises, and
`some (some st)` = file parses to `st`. -/
def RestartFile : Type := Option (Option RestartStateFile)

/-- Embedding of `should_restart_worker` (learning_worker.py:253-282): allow start when
no state file exists; allow on read error (the `except` path returns
`True`); otherwise deny while `now < backoff_until`, deny when
`restart_count >= 5`, and allow in every other case. -/
def should_restart_worker (now : Nat) (file : RestartFile) : Bool :=
  match file with
  | none => true
  | some none => true
  | some (some st) =>
    if now < st.backoff_until.getD 0 then false
    else if 5 ≤ st.restart_count.getD 0 then false
    else true

/-- The dict `update_restart_state` starts from: the parsed file when it
exists and parses, else the default `{'restart_count': 0, 'backoff_until': 0}`
(the read error path is `pass`). -/
def restartStateOrDefault (file : RestartFile) : RestartStateFile :=
  match file with
  | some (some st) => st
  | _ => { restart_count := some 0, backoff_until := some 0 }

/-- Embedding of `update_restart_state` (learning_worker.py:285-310): increments
`restart_count`, then sets
`backoff_until = now + min(2 ** restart_count, 3600)` computed from the
already-incremented count, and persists the result. -/
def update_restart_state (now : Nat) (file : RestartFile) : RestartStateFile :=
  let state := restartStateOrDefault file
  let n := state.restart_count.getD 0 + 1
  { restart_count := some n, backoff_until := some (now + min (2 ^ n) 3600) }

/-- The constant `TRIGGER_THRESHOLD = 10` (learning_monitor.py:28). -/
def TRIGGER_THRESHOLD : Nat := 10

/-- The monitor's trigger decision (learning_monitor.py:194-201): trigger
when `queue_size >= TRIGGER_THRESHOLD` and either no trigger has happened
yet or `(datetime.now() - last_trigger_time).seconds > 300`.  For a
non-negative whole-second difference `d`, `timedelta.seconds` is
`d % 86400` (the seconds component after whole days are split off), so
that is what the embedding computes. -/
def monitor_should_trigger (queue_size : Nat) (now : Nat)
    (last_trigger_time : Option Nat) : Bool :=
  decide (TRIGGER_THRESHOLD ≤ queue_size) &&
    match last_trigger_time with
    | none => true
    | some t => decide (300 < (now - t) % 86400)

/-- Python's `not line.strip()`: the line is empty or all whitespace. -/
def isBlankLine (line : String) : Bool :=
  line.toList.all Char.isWhitespace

/-- The partition loop of `archive_old_events` (learning_monitor.py:115-130):
blank lines are skipped outright; a line that decodes gets archived when
`event.get('timestamp', 0) < cutoff_time` and kept otherwise; a line that
raises `JSONDecodeError` is kept.  Returns
`(events_to_archive, events_to_keep)` in original relative order. -/
def archive_partition (decode : String → Option Event) (cutoff : Int) :
    List String → List String × List String
  | [] => ([], [])
  | line :: rest =>
    let p := archive_partition decode cutoff rest
    if isBlankLine line then p
    else
      match decode line with
      | some e =>
        if e.timestamp.getD 0 < cutoff then (line :: p.1, p.2) else (p.1, line :: p.2)
      | none => (p.1, line :: p.2)

/-- One full archiving pass (learning_monitor.py:105-144): partition the
queue lines, append the archived set to the archive file, and rewrite the
queue with the kept set.  Returns `(new queue, new archive file)`. -/
def archive_old_events (decode : String → Option Event) (cutoff : Int)
    (queue archiveFile : List String) : List String × List String :=
  let p := archive_partition decode cutoff queue
  (p.2, archiveFile ++ p.1)

/-- A line the archiving pass moves to the archive: non-blank, decodes, and
its timestamp (0 when absent) is older than the cutoff. -/
def archivesLine (decode : String → Option Event) (cutoff : Int) (l : String) : Bool :=
  !isBlankLine l && (decode l).elim false (fun e => decide (e.timestamp.getD 0 < cutoff))

/-- A line the archiving pass keeps in the queue: non-blank, and either
fails to decode or has timestamp at least the cutoff. -/
def keepsLine (decode : String → Option Event) (cutoff : Int) (l : String) : Bool :=
  !isBlankLine l && (decode l).elim true (fun e => decide (cutoff ≤ e.timestamp.getD 0))

/-- Concrete decoder for the spec's archiving example, with "now" taken as
day 10: `old` is 8 days old, `recent` 1 day old, `fresh` current; anything
else is malformed. -/
def exArchiveDecode : String → Option Event := fun s =>
  if s = "old" then some { timestamp := some (2 * 86400) }
  else if s = "recent" then some { timestamp := some (9 * 86400) }
  else if s = "fresh" then some { timestamp := some (10 * 86400) }
  else none

/-- Embedding of `_empty_memory()` (learning_memory.py:139-150): fresh document with no
preferences, both timestamps set to now, version "1.0". -/
def empty_memory (now : Nat) : MemoryDoc :=
  { preferences := [], created_at := now, updated_at := now, version := "1.0" }

/-- A project's `.data` directory as the memory store sees it: the primary
`memory.json`, the `memory.json.backup`, and the transient
`memory.json.tmp`, each possibly absent. -/
structure DataDir where
  primary : Option FileContent := none
  backup : Option FileContent := none
  tmp : Option FileContent := none
deriving DecidableEq, Repr

/-- Embedding of `_read_memory_unsafe` (learning_memory.py:106-136): absent primary ⇒
empty document; primary parses ⇒ its contents; primary corrupt ⇒ parse the
backup when it exists, and on absence or a second parse failure return an
empty document.  Total: a parse failure is never raised. -/
def read_memory_unsafe (now : Nat) (primary backup : Option FileContent) : MemoryDoc :=
  match primary with
  | none => empty_memory now
  | some c =>
    match parseJson c with
    | some d => d
    | none =>
      match backup with
      | some b => (parseJson b).getD (empty_memory now)
      | none => empty_memory now

/-- Embedding of `read_memory` (learning_memory.py:73-103): absent primary ⇒ empty
document without touching the lock; otherwise the corruption-tolerant read
under the lock. -/
def read_memory (now : Nat) (d : DataDir) : MemoryDoc :=
  match d.primary with
  | none => empty_memory now
  | some _ => read_memory_unsafe now d.primary d.backup

/-- The stamping step `preference['added_at'] = datetime.now().isoformat()`
(learning_memory.py:56). -/
def stampPref (pref : Preference) (now : Nat) : Preference :=
  { pref with added_at := some now }

/-- The document `write_memory` is about to persist
(learning_memory.py:48-58): the corruption-tolerant read of the current
state, with the freshly stamped preference appended and `updated_at`
refreshed. -/
def write_memory_doc (now : Nat) (d : DataDir) (pref : Preference) : MemoryDoc :=
  let memory := read_memory_unsafe now d.primary d.backup
  { memory with
    preferences := memory.preferences ++ [stampPref pref now]
    updated_at := now }

/-- The backup step `shutil.copy2(memory_file, backup_file)` guarded by
`memory_file.exists()` (learning_memory.py:51-52). -/
def write_step_backup (d : DataDir) : DataDir :=
  match d.primary with
  | some c => { d with backup := some c }
  | none => d

/-- The tmp-write step `json.dump(memory, tmp_file)` (learning_memory.py:61-62). -/
def write_step_tmp (doc : MemoryDoc) (d : DataDir) : DataDir :=
  { d with tmp := some (.valid doc) }

/-- The rename step `os.replace(tmp_file, memory_file)` (learning_memory.py:65): the
rename installs the tmp file as the primary in one step. -/
def write_step_rename (d : DataDir) : DataDir :=
  match d.tmp with
  | some c => { d with primary := some c, tmp := none }
  | none => d

/-- Embedding of `write_memory` (learning_memory.py:19-70), as the composition of the
read, the backup copy, the tmp write, and the atomic rename, all under the
project lock. -/
def write_memory (now : Nat) (pref : Preference) (d : DataDir) : DataDir :=
  write_step_rename (write_step_tmp (write_memory_doc now d pref) (write_step_backup d))

/-- The directory states visible to a concurrent observer of the primary
file during one `write_memory` call, in order: after the backup copy,
after the tmp write, and after the atomic rename. -/
def write_memory_states (now : Nat) (pref : Preference) (d : DataDir) : List DataDir :=
  let s1 := write_step_backup d
  let s2 := write_step_tmp (write_memory_doc now d pref) s1
  [s1, s2, write_step_rename s2]

/-- A sequence of `write_memory` calls, each with its own clock value. -/
def runWrites (d : DataDir) (ws : List (Nat × Preference)) : DataDir :=
  ws.foldl (fun acc w => write_memory w.1 w.2 acc) d

/-- One watchdog wake-up (health_monitor.py:55-60): terminate when
`idle_time = now - last_activity` exceeds `timeout_seconds`. -/
def watchdog_check (timeout_seconds now last_activity : Nat) : Bool :=
  decide (timeout_seconds < now - last_activity)

/-- Embedding of `HealthMonitor._watchdog_loop` (health_monitor.py:50-60) over a trace:
`checks` lists the loop's wake-up instants (one every 10 s while running)
and `lastActivity t` is the value of `self.last_activity` at instant `t`.
Returns `some t` when the loop calls `os._exit(1)` at instant `t` —
bypassing all cleanup, so no later instant is examined — and `none` when
it never fires. -/
def watchdog_run (timeout_seconds : Nat) (lastActivity : Nat → Nat) :
    List Nat → Option Nat
  | [] => none
  | t :: rest =>
    if watchdog_check timeout_seconds t (lastActivity t) then some t
    else watchdog_run timeout_seconds lastActivity rest

/-- The read loop inside `LearningWorker._poll_queue`
(learning_worker.py:157-167): read up to `limit` lines; a line that
decodes is appended to the result and advances `queue_position`; a line
that raises `JSONDecodeError` is only logged — the position is *not*
advanced.  Returns the decoded events and the final `queue_position`. -/
def poll_lines (decode : String → Option Event) :
    List String → Nat → Nat → List Event × Nat
  | _, 0, pos => ([], pos)
  | [], _ + 1, pos => ([], pos)
  | line :: rest, limit + 1, pos =>
    match decode line with
    | some e =>
      let r := poll_lines decode rest limit (pos + 1)
      (e :: r.1, r.2)
    | none => poll_lines decode rest limit pos

/-- Embedding of `LearningWorker._poll_queue` (learning_worker.py:130-177): skip
`queue_position` lines, then run the bounded read loop. -/
def poll_queue (decode : String → Option Event) (queue : List String)
    (pos limit : Nat) : List Event × Nat :=
  poll_lines decode (queue.drop pos) limit pos

/-- Concrete decoder for the queue-cursor analysis: only the line
`"good"` is valid JSON. -/
def exPollDecode : String → Option Event := fun s =>
  if s = "good" then some { event_type := "stop" } else none

/-- Python `pat in s` — substring containment. -/
def strContains (s pat : String) : Bool :=
  decide (pat.toList <:+: s.toList)

/-- The language keyword list of `classify_scope`
(learning_extractor.py:148-152). -/
def language_keywords : List String :=
  ["python", "javascript", "typescript", "java", "rust", "go",
   "react", "vue", "angular", "django", "flask", "fastapi",
   "pip", "npm", "cargo", "maven", "gradle"]

/-- The project keyword list of `classify_scope`
(learning_extractor.py:160-163). -/
def project_keywords : List String :=
  ["this project", "this codebase", "this repo",
   "here", "for this", "in this"]

/-- Embedding of `classify_scope` (learning_extractor.py:130-172): lowercase
`preference.get('raw_text', '')`; return "language" on the first language
keyword hit, else "project" on a project keyword hit, else "project" as
the conservative default.  `project_path` is accepted but never consulted. -/
def classify_scope (preference : Preference) (project_path : String) : String :=
  let raw_text := (preference.raw_text.getD "").toLower
  if language_keywords.any (fun k => strContains raw_text k) then "language"
  else if project_keywords.any (fun k => strContains raw_text k) then "project"
  else "project"

end Amplicode

namespace Amplicode

/-- Every `write_memory` call leaves the primary holding exactly the
complete new document, whatever the starting state. -/
theorem write_memory_primary (now : Nat) (pref : Preference) (d : DataDir) :
    (write_memory now pref d).primary = some (.valid (write_memory_doc now d pref)) := by
  cases hd : d.primary <;>
    simp [write_memory, write_step_rename, write_step_tmp, write_step_backup, hd]

/-- The preferences accumulated by a run of writes extend the starting
document's list by the stamped inputs, in call order. -/
theorem runWrites_prefs (n : Nat) (ws : List (Nat × Preference)) :
    ∀ (d : DataDir) (ps : List Preference),
      ((d.primary = none ∧ ps = []) ∨
        (∃ doc, d.primary = some (.valid doc) ∧ doc.preferences = ps)) →
      (read_memory n (runWrites d ws)).preferences
        = ps ++ ws.map (fun w => stampPref w.2 w.1) := by
  induction ws with
  | nil =>
    intro d ps h
    rcases h with ⟨hp, hps⟩ | ⟨doc, hp, hps⟩
    · simp [runWrites, read_memory, hp, hps, empty_memory]
    · simp [runWrites, read_memory, read_memory_unsafe, parseJson, hp, hps]
  | cons w ws ih =>
    intro d ps h
    have hdoc : (write_memory_doc w.1 d w.2).preferences = ps ++ [stampPref w.2 w.1] := by
      rcases h with ⟨hp, hps⟩ | ⟨doc, hp, hps⟩
      · simp [write_memory_doc, read_memory_unsafe, hp, hps, empty_memory]
      · simp [write_memory_doc, read_memory_unsafe, parseJson, hp, hps]
    have hrun : runWrites d (w :: ws) = runWrites (write_memory w.1 w.2 d) ws := rfl
    rw [hrun, ih (write_memory w.1 w.2 d) (ps ++ [stampPref w.2 w.1])
      (Or.inr ⟨write_memory_doc w.1 d w.2, write_memory_primary w.1 w.2 d, hdoc⟩)]
    simp

theorem archive_partition_eq_filter (decode : String → Option Event) (cutoff : Int)
    (lines : List String) :
    archive_partition decode cutoff lines
      = (lines.filter (archivesLine decode cutoff), lines.filter (keepsLine decode cutoff)) := by
  induction lines with
  | nil => rfl
  | cons line rest ih =>
    by_cases hb : isBlankLine line
    · simp [archive_partition, ih, List.filter, archivesLine, keepsLine, hb]
    · cases hd : decode line with
      | none =>
        simp [archive_partition, ih, List.filter, archivesLine, keepsLine, hb, hd]
      | some e =>
        by_cases ht : e.timestamp.getD 0 < cutoff
        · have ht' : ¬ cutoff ≤ e.timestamp.getD 0 := not_le.2 ht
          simp [archive_partition, ih, List.filter, archivesLine, keepsLine, hb, hd, ht, ht']
        · have ht' : cutoff ≤ e.timestamp.getD 0 := le_of_not_lt ht
          simp [archive_partition, ih, List.filter, archivesLine, keepsLine, hb, hd, ht, ht']

/-- C7: `should_restart_worker` returns true when no restart-state file
exists; returns false whenever `now < backoff_until`; returns false
whenever `restart_count ≥ 5` regardless of `backoff_until`; and returns
true in every remaining case. -/
theorem shouldRestart_spec (now : Nat) (file : RestartFile) :
    (file = none → should_restart_worker now file = true) ∧
    (∀ st, file = some (some st) → now < st.backoff_until.getD 0 →
      should_restart_worker now file = false) ∧
    (∀ st, file = some (some st) → 5 ≤ st.restart_count.getD 0 →
      should_restart_worker now file = false) ∧
    (∀ st, file = some (some st) → ¬ now < st.backoff_until.getD 0 →
      ¬ 5 ≤ st.restart_count.getD 0 →
      should_restart_worker now file = true) := by
  refine ⟨fun h => by subst h; rfl, fun st h hb => ?_, fun st h hc => ?_, fun st h hb hc => ?_⟩
  · subst h
    simp [should_restart_worker, hb]
  · subst h
    by_cases hb : now < st.backoff_until.getD 0 <;>
      simp [should_restart_worker, hb, hc]
  · subst h
    simp [should_restart_worker, hb, hc]

/-- Concrete instances of `shouldRestart_spec`: no file ⇒ allow; in
cooldown ⇒ deny; five crashes ⇒ deny even out of cooldown; otherwise
allow. -/
theorem shouldRestart_spec_witness :
    should_restart_worker 0 none = true ∧
    should_restart_worker 5 (some (some ⟨some 1, some 10⟩)) = false ∧
    should_restart_worker 50 (some (some ⟨some 7, some 10⟩)) = false ∧
    should_restart_worker 50 (some (some ⟨some 2, some 10⟩)) = true :=
  ⟨(shouldRestart_spec 0 none).1 rfl,
   (shouldRestart_spec 5 _).2.1 _ rfl (by decide),
   (shouldRestart_spec 50 _).2.2.1 _ rfl (by decide),
   (shouldRestart_spec 50 _).2.2.2 _ rfl (by decide) (by decide)⟩

/-- C9: when the restart-state file exists but reading or parsing it
raises, `should_restart_worker` fails open, returning true — the same
outcome as when no state file exists. -/
theorem shouldRestart_failsOpen (now : Nat) :
    should_restart_worker now (some none) = true ∧
    should_restart_worker now (some none) = should_restart_worker now none :=
  ⟨rfl, rfl⟩

/-- C2 counterexample: with prior `restart_count = 3`, the code sets a
backoff of `min(2^4, 3600) = 16` seconds (it increments before taking the
power), not the `2^3 = 8` seconds the claim states. -/
theorem updateRestart_not_preIncrement :
    (update_restart_state 0 (some (some ⟨some 3, some 0⟩))).backoff_until = some 16 ∧
    (16 : Nat) ≠ 0 + 8 := by
  constructor
  · rfl
  · decide

/-- C6 counterexample: a whitespace-only line fails to decode as JSON, yet
the archiving pass keeps it in neither the queue nor the archive — it is
dropped, where the claim says every line failing to parse is kept. -/
theorem archive_drops_blank_line :
    exArchiveDecode " " = none ∧
    archive_old_events exArchiveDecode (3 * 86400) [" "] [] = ([], []) ∧
    ([] : List String) ≠ [" "] :=
  ⟨rfl, rfl, by decide⟩

/-- C6 amended: one archiving pass moves to the archive exactly the
non-blank lines that parse and whose timestamp (0 when the field is
absent) is older than the cutoff; non-blank lines that fail to parse or
are new enough are kept in the queue in original relative order; blank
lines are dropped from both.  On the spec's example (lines aged 8 days,
1 day, and 0 days against a 7-day cutoff) exactly the 8-day line is
archived and the other two stay, in order. -/
theorem archiveOldEvents_spec (decode : String → Option Event) (cutoff : Int)
    (queue archiveFile : List String) :
    archive_old_events decode cutoff queue archiveFile
      = (queue.filter (keepsLine decode cutoff),
         archiveFile ++ queue.filter (archivesLine decode cutoff)) ∧
    archive_old_events exArchiveDecode (3 * 86400) ["old", "recent", "fresh"] []
      = (["recent", "fresh"], ["old"]) := by
  constructor
  · simp [archive_old_events, archive_partition_eq_filter]
  · rfl

/-- C3: the monitor's cooldown compares `timedelta.seconds` — the elapsed
time modulo one day — against 300, so a threshold check 86460 seconds
(one day and one minute) after the last trigger does not trigger even
though far more than 300 seconds have elapsed, contradicting the claim
(and the code's own comment "at least 5 minutes between triggers").  The
first two conjuncts record the behaviour the claim gets right: a first
check at threshold triggers, and a check 100 s after a trigger does not. -/
theorem monitor_trigger_day_wrap :
    monitor_should_trigger 12 0 none = true ∧
    monitor_should_trigger 12 100 (some 0) = false ∧
    monitor_should_trigger 12 86460 (some 0) = false ∧
    (300 : Nat) ≤ 86460 - 0 := by decide

/-- C4: when the primary memory document is corrupt, `read_memory` returns
the parsed backup when a valid backup exists, and a fresh empty document
(`preferences = []`) when the backup is absent or also corrupt; the parse
failure is never surfaced (the reader is a total function returning a
document in every case). -/
theorem readMemory_corruption_fallback (now : Nat) (d : DataDir) (doc : MemoryDoc)
    (hp : d.primary = some .corrupt) :
    (d.backup = some (.valid doc) → read_memory now d = doc) ∧
    ((d.backup = none ∨ d.backup = some .corrupt) →
      read_memory now d = empty_memory now ∧ (read_memory now d).preferences = []) := by
  constructor
  · intro hb
    simp [read_memory, read_memory_unsafe, parseJson, hp, hb]
  · rintro (hb | hb) <;>
      simp [read_memory, read_memory_unsafe, parseJson, hp, hb, empty_memory]

/-- Concrete instance of `readMemory_corruption_fallback`: a corrupt
primary with a valid, non-empty backup yields exactly the backup's
contents, and a corrupt primary with no backup yields no preferences. -/
theorem readMemory_corruption_fallback_witness :
    read_memory 7
        ⟨some .corrupt,
         some (.valid ⟨[{ payload := "p" }], 1, 2, "1.0"⟩), none⟩
      = ⟨[{ payload := "p" }], 1, 2, "1.0"⟩ ∧
    (read_memory 7 ⟨some .corrupt, none, none⟩).preferences = [] :=
  ⟨(readMemory_corruption_fallback 7 _ ⟨[{ payload := "p" }], 1, 2, "1.0"⟩ rfl).1 rfl,
   ((readMemory_corruption_fallback 7 _ ⟨[], 0, 0, "1.0"⟩ rfl).2 (Or.inl rfl)).2⟩

/-- C5: starting from an absent or empty memory document, any sequence of
`write_memory` calls leaves a document whose `preferences` list is exactly
the stamped inputs in call order; and during any single call the primary
file only ever holds the old document or the complete new one — every
externally visible intermediate state keeps the old primary, and the
rename installs the full new document. -/
theorem writeMemory_spec (ws : List (Nat × Preference)) (d : DataDir) (n : Nat)
    (h : d.primary = none ∨ ∃ t0, d.primary = some (.valid (empty_memory t0))) :
    (read_memory n (runWrites d ws)).preferences
        = ws.map (fun w => stampPref w.2 w.1) ∧
    ∀ (now : Nat) (pref : Preference) (d' s : DataDir),
      s ∈ write_memory_states now pref d' →
      s.primary = d'.primary ∨
        s.primary = some (.valid (write_memory_doc now d' pref)) := by
  constructor
  · have hstart : (d.primary = none ∧ ([] : List Preference) = []) ∨
        (∃ doc, d.primary = some (.valid doc) ∧ doc.preferences = []) := by
      rcases h with h | ⟨t0, h⟩
      · exact Or.inl ⟨h, rfl⟩
      · exact Or.inr ⟨empty_memory t0, h, rfl⟩
    simpa using runWrites_prefs n ws d [] hstart
  · intro now pref d' s hs
    have hs' : s = write_step_backup d' ∨
        s = write_step_tmp (write_memory_doc now d' pref) (write_step_backup d') ∨
        s = write_step_rename
            (write_step_tmp (write_memory_doc now d' pref) (write_step_backup d')) := by
      simpa [write_memory_states] using hs
    rcases hs' with rfl | rfl | rfl
    · left
      cases hd : d'.primary <;> simp [write_step_backup, hd]
    · left
      cases hd : d'.primary <;> simp [write_step_tmp, write_step_backup, hd]
    · right
      cases hd : d'.primary <;>
        simp [write_step_rename, write_step_tmp, write_step_backup, hd]

/-- Concrete instance of `writeMemory_spec`: two writes into an initially
absent document produce exactly the two stamped preferences, in order. -/
theorem writeMemory_spec_witness :
    (read_memory 0 (runWrites ⟨none, none, none⟩
        [(5, { payload := "p" }), (6, { payload := "q" })])).preferences
      = [stampPref { payload := "p" } 5, stampPref { payload := "q" } 6] :=
  (writeMemory_spec [(5, { payload := "p" }), (6, { payload := "q" })]
    ⟨none, none, none⟩ 0 (Or.inl rfl)).1

/-- C8: over any trace of watchdog wake-ups, (i) if some wake-up sees idle
time exceeding `timeout_seconds`, the loop terminates the process at such
a wake-up; (ii) if at every wake-up the time since the last recorded
activity is shorter than the timeout, the loop never terminates the
process; and (iii) a wake-up that sees the timeout exceeded terminates
immediately — the remaining trace is never examined (the model's
`os._exit` returns at once, bypassing cleanup). -/
theorem watchdog_spec (timeout_seconds : Nat) (lastActivity : Nat → Nat)
    (checks : List Nat) :
    ((∃ t ∈ checks, timeout_seconds < t - lastActivity t) →
      ∃ u ∈ checks, watchdog_run timeout_seconds lastActivity checks = some u ∧
        timeout_seconds < u - lastActivity u) ∧
    ((∀ t ∈ checks, t - lastActivity t < timeout_seconds) →
      watchdog_run timeout_seconds lastActivity checks = none) ∧
    (∀ t rest, timeout_seconds < t - lastActivity t →
      watchdog_run timeout_seconds lastActivity (t :: rest) = some t) := by
  refine ⟨?_, ?_, ?_⟩
  · induction checks with
    | nil => intro h; simp at h
    | cons c cs ih =>
      intro h
      by_cases hc : timeout_seconds < c - lastActivity c
      · exact ⟨c, List.mem_cons_self c cs,
          by simp [watchdog_run, watchdog_check, hc], hc⟩
      · obtain ⟨t, htmem, hlt⟩ := h
        rcases List.mem_cons.mp htmem with rfl | htcs
        · exact absurd hlt hc
        · obtain ⟨u, hu, hequ, hltu⟩ := ih ⟨t, htcs, hlt⟩
          exact ⟨u, List.mem_cons_of_mem _ hu,
            by simpa [watchdog_run, watchdog_check, hc] using hequ, hltu⟩
  · induction checks with
    | nil => intro _; rfl
    | cons c cs ih =>
      intro h
      have hc : ¬ timeout_seconds < c - lastActivity c :=
        not_lt.2 (le_of_lt (h c (List.mem_cons_self c cs)))
      simpa [watchdog_run, watchdog_check, hc] using
        ih (fun t ht => h t (List.mem_cons_of_mem _ ht))
  · intro t rest ht
    simp [watchdog_run, watchdog_check, ht]

/-- Concrete instances of `watchdog_spec`: with a 120-second timeout, a
wake-up at t = 130 with last activity at 0 kills the process on the spot,
while activity recorded at every wake-up keeps the process alive. -/
theorem watchdog_spec_witness :
    watchdog_run 120 (fun _ => 0) [130] = some 130 ∧
    watchdog_run 120 (fun t => t) [10, 20] = none :=
  ⟨(watchdog_spec 120 (fun _ => 0) [130]).2.2 130 [] (by decide),
   (watchdog_spec 120 (fun t => t) [10, 20]).2.1 (by decide)⟩

/-- C1: `_poll_queue` advances `queue_position` only on lines that decode,
so a malformed line shifts the cursor short of the lines physically read.
With queue `["bad", "good"]` the first poll returns the decoded `"good"`
event but only advances the cursor to 1; the next poll skips `"bad"`,
re-reads `"good"`, and returns the same event a second time.  With queue
`["bad"]` the cursor never advances at all, so the malformed line is
re-read on every poll forever — contradicting the claim that no line is
ever returned or re-read twice. -/
theorem poll_rereads_after_malformed :
    poll_queue exPollDecode ["bad", "good"] 0 10
      = ([{ event_type := "stop" }], 1) ∧
    poll_queue exPollDecode ["bad", "good"] 1 10
      = ([{ event_type := "stop" }], 2) ∧
    poll_queue exPollDecode ["bad"] 0 10 = ([], 0) :=
  ⟨rfl, rfl, rfl⟩

/-- C10: `classify_scope` only ever returns "language" or "project", never
"global"; it returns "language" exactly when the lowercased `raw_text`
contains a language keyword, and "project" in every other case (whether a
project keyword matches or nothing matches at all). -/
theorem classifyScope_spec (preference : Preference) (project_path : String) :
    (classify_scope preference project_path = "language" ∨
      classify_scope preference project_path = "project") ∧
    classify_scope preference project_path ≠ "global" ∧
    (classify_scope preference project_path = "language" ↔
      language_keywords.any
        (fun k => strContains ((preference.raw_text.getD "").toLower) k) = true) := by
  cases h1 : language_keywords.any
      (fun k => strContains ((preference.raw_text.getD "").toLower) k) with
  | true =>
    have hc : classify_scope preference project_path = "language" := by
      simp [classify_scope, h1]
    refine ⟨Or.inl hc, ?_, ?_⟩
    · rw [hc]; decide
    · exact iff_of_true hc rfl
  | false =>
    have hc : classify_scope preference project_path = "project" := by
      simp [classify_scope, h1]
    refine ⟨Or.inr hc, ?_, ?_⟩
    · rw [hc]; decide
    · rw [hc]; decide

/-- C2 amended: `update_restart_state` increments `restart_count` from the
prior value `n` to `n + 1` and sets
`backoff_until = now + min(2^(n+1), 3600)`, computed from the
post-increment count; in particular prior count 3 yields a 16-second
backoff and prior count 10 yields `2^11 = 2048` seconds. -/
theorem updateRestart_spec (now : Nat) (file : RestartFile) :
    (update_restart_state now file).restart_count
      = some ((restartStateOrDefault file).restart_count.getD 0 + 1) ∧
    (update_restart_state now file).backoff_until
      = some (now + min (2 ^ ((restartStateOrDefault file).restart_count.getD 0 + 1)) 3600) ∧
    (update_restart_state 0 (some (some ⟨some 3, some 0⟩))).backoff_until = some 16 ∧
    (update_restart_state 0 (some (some ⟨some 10, some 0⟩))).backoff_until = some 2048 :=
  ⟨rfl, rfl, rfl, rfl⟩

end Amplicode
